import Mathlib

/-!
Verification of the mbed-os SPI HAL contract (`hal/spi_api.h`).

The repository file is a declaration-only header: it carries the event-flag
and fill constants, the `spi_t` handle layout, and doc-comment contracts for
each operation, but no implementations.  The constants and the handle layout
below are translated directly from the header; each behavioral operation is
modelled from the spec's words (its implementation lives in platform code
absent from the repository) and is marked as such in its doc comment.
-/

namespace SpiHal

/-! ## Event-flag and fill constants (translated from `hal/spi_api.h` lines 30-38) -/

/-- `#define SPI_EVENT_ERROR (1 << 1)` -/
def SPI_EVENT_ERROR : Nat := 1 <<< 1

/-- `#define SPI_EVENT_COMPLETE (1 << 2)` -/
def SPI_EVENT_COMPLETE : Nat := 1 <<< 2

/-- `#define SPI_EVENT_RX_OVERFLOW (1 << 3)` -/
def SPI_EVENT_RX_OVERFLOW : Nat := 1 <<< 3

/-- `#define SPI_EVENT_ALL (SPI_EVENT_ERROR | SPI_EVENT_COMPLETE | SPI_EVENT_RX_OVERFLOW)` -/
def SPI_EVENT_ALL : Nat := SPI_EVENT_ERROR ||| SPI_EVENT_COMPLETE ||| SPI_EVENT_RX_OVERFLOW

/-- `#define SPI_EVENT_INTERNAL_TRANSFER_COMPLETE (1 << 30)` -/
def SPI_EVENT_INTERNAL_TRANSFER_COMPLETE : Nat := 1 <<< 30

/-- `#define SPI_FILL_WORD (0xFFFF)` -/
def SPI_FILL_WORD : Nat := 0xFFFF

/-- `#define SPI_FILL_CHAR (0xFF)` -/
def SPI_FILL_CHAR : Nat := 0xFF

/-! ## The handle type (translated from `hal/spi_api.h` lines 40-54)

`struct spi_s` is target specific and `struct buffer_s` comes from
`hal/buffer.h`; neither is in the repository.  They are modelled with the
fields the header's own doc comments refer to: `spi_active`'s contract
speaks of DMA channel allocation, buffer positions/lengths and FIFO bytes,
and the async contract speaks of an in-flight transfer with a registered
handler and event mask. -/

/-- Modelled from the spec: `struct buffer_s` (from `hal/buffer.h`, absent from
the repository).  The `spi_active` contract checks whether a buffer has been
assigned and whether its position is less than its length. -/
structure buffer_s where
  assigned : Bool
  pos : Nat
  length : Nat
deriving Repr, DecidableEq

/-- Modelled from the spec: `struct spi_s`, the target-specific SPI structure
(absent from the repository).  It carries the state the header's contracts
mention: DMA channel allocation and use, FIFO occupancy, hardware error and
receive-overflow termination conditions, whether an asynchronous transfer is
in flight, and the handler reference and event mask registered by
`spi_master_transfer`. -/
structure spi_s where
  dmaTempAllocated : Bool
  dmaPermAllocated : Bool
  dmaInUse : Bool
  txFifoBytes : Nat
  rxFifoBytes : Nat
  hwError : Bool
  rxOverflowed : Bool
  asyncTransferActive : Bool
  handler : Nat
  eventMask : Nat
deriving Repr, DecidableEq

/-- Asynch SPI HAL structure (`DEVICE_SPI_ASYNCH` branch): exactly the three
fields of the header's `typedef struct { struct spi_s spi; struct buffer_s
tx_buff; struct buffer_s rx_buff; } spi_t;`. -/
structure spi_t where
  spi : spi_s
  tx_buff : buffer_s
  rx_buff : buffer_s
deriving Repr, DecidableEq

/-- Non-asynch SPI HAL structure: `typedef struct spi_s spi_t;` — the
platform-specific descriptor alone. -/
def spi_t_nonasync : Type := spi_s

end SpiHal

namespace SpiHal

/-! ## Synchronous block transfer -/

/-- Outcome of a synchronous block exchange: the C `int` return value and the
sequence of bytes the master actually shifted out on the bus. -/
structure BlockWriteResult where
  ret : Int
  transmitted : List Nat
deriving Repr, DecidableEq

/-- Modelled from the spec: the implementation of `spi_master_block_write` is
platform code absent from the repository.  Per the header contract it writes
`tx_length` bytes and reads `rx_length` bytes, the total number of bytes sent
and received is the maximum of `tx_length` and `rx_length`, and `write_fill`
is the default data transmitted while performing a read: position `i` on the
bus carries `tx_buffer[i]` when `i < tx_length` and `write_fill` otherwise. -/
def spi_master_block_write (tx_buffer : List Nat) (tx_length : Int)
    (rx_length : Int) (write_fill : Nat) : BlockWriteResult :=
  let total : Nat := max tx_length.toNat rx_length.toNat
  { ret := (total : Int)
    transmitted :=
      (List.range total).map fun i =>
        if i < tx_length.toNat then tx_buffer.getD i write_fill else write_fill }

/-! ## Asynchronous operations -/

/-- The transfer-complete termination condition: both buffer descriptors have
reached their lengths. -/
def transferComplete (obj : spi_t) : Bool :=
  obj.tx_buff.length ≤ obj.tx_buff.pos && obj.rx_buff.length ≤ obj.rx_buff.pos

/-- Modelled from the spec: the implementation of `spi_irq_handler_asynch` is
platform code absent from the repository.  Per the header contract it drains
and fills the hardware FIFOs and checks for transfer termination conditions
(error, transfer complete, receive overflow), returning event flags if a
termination condition was met and 0 otherwise; completion additionally sets
the internal transfer-complete flag. -/
def spi_irq_handler_asynch (obj : spi_t) : Nat :=
  (if obj.spi.hwError then SPI_EVENT_ERROR else 0) |||
  (if obj.spi.rxOverflowed then SPI_EVENT_RX_OVERFLOW else 0) |||
  (if transferComplete obj then
    SPI_EVENT_COMPLETE ||| SPI_EVENT_INTERNAL_TRANSFER_COMPLETE
  else 0)

/-- Modelled from the spec: the implementation of `spi_active` is platform
code absent from the repository.  It follows the header's documented decision
procedure: a temporary DMA channel allocated means in use; a permanent DMA
channel allocated is checked for use, and if not in use the procedure
proceeds as though no DMA channel were allocated; then each assigned buffer
is checked for position strictly less than length; and finally the FIFOs are
checked for bytes. -/
def spi_active (obj : spi_t) : Nat :=
  if obj.spi.dmaTempAllocated then 1
  else if obj.spi.dmaPermAllocated && obj.spi.dmaInUse then 1
  else if (obj.tx_buff.assigned && decide (obj.tx_buff.pos < obj.tx_buff.length)) ||
          (obj.rx_buff.assigned && decide (obj.rx_buff.pos < obj.rx_buff.length)) then 1
  else if obj.spi.txFifoBytes + obj.spi.rxFifoBytes ≠ 0 then 1
  else 0

/-- Modelled from the spec: the implementation of `spi_abort_asynch` is
platform code absent from the repository.  Per the header, aborting cancels
an on-going asynchronous transfer; calling it while no asynchronous transfer
is being processed is listed as undefined behavior, modelled as `none`. -/
def spi_abort_asynch (obj : spi_t) : Option spi_t :=
  if obj.spi.asyncTransferActive then
    some { obj with spi := { obj.spi with asyncTransferActive := false } }
  else none

/-- Modelled from the spec: the implementation of `spi_master_transfer` is
platform code absent from the repository.  Per the header it begins the
asynchronous transfer over the given buffers, registers the caller-supplied
`handler` and `event` mask, and returns immediately; the second component is
the number of hardware ticks consumed before control returns to the caller,
which is zero. -/
def spi_master_transfer (obj : spi_t) (tx_length rx_length : Nat)
    (handler : Nat) (event : Nat) : spi_t × Nat :=
  ({ obj with
      spi :=
        { obj.spi with
          asyncTransferActive := true
          handler := handler
          eventMask := event }
      tx_buff := { assigned := true, pos := 0, length := tx_length }
      rx_buff := { assigned := true, pos := 0, length := rx_length } }, 0)

/-- Modelled from the spec: completion of an asynchronous transfer is
signaled by interrupt-driven invocation of the caller-supplied handler.  When
the ISR reports a termination event mask, the stored handler reference is
invoked; while the transfer continues (mask 0) no handler runs. -/
def completionSignal (obj : spi_t) : Option Nat :=
  if spi_irq_handler_asynch obj ≠ 0 then some obj.spi.handler else none

/-! ## Blocking synchronous semantics

The header describes the synchronous operations (`spi_master_write`,
`spi_master_block_write`, `spi_slave_read`, `spi_slave_write`) as blocking
the calling context until the hardware condition they wait on holds
(`spi_slave_read` "blocks until a value is available", `spi_slave_write`
"blocks until the SPI peripheral can be written to").  We model discrete
hardware time as ticks and the condition as a readiness trace. -/

/-- Modelled from the spec: a blocking synchronous operation polls its
hardware-completion condition tick by tick, returning at the first tick where
the condition holds; `none` means the operation is still blocked when the
fuel runs out (it never returns early). -/
def blockUntil (ready : Nat → Bool) : Nat → Nat → Option Nat
  | _, 0 => none
  | t, fuel + 1 => if ready t then some t else blockUntil ready (t + 1) fuel

/-- Modelled from the spec: a synchronous SPI call run from tick 0 — it
returns the tick at which its hardware-completion condition first holds. -/
def syncBlockingRun (ready : Nat → Bool) (fuel : Nat) : Option Nat :=
  blockUntil ready 0 fuel

/-! ## Pin-capability queries -/

/-- `PinMap` entry (from `pinmap.h`, absent from the repository): a pin, the
peripheral it maps to, and a function index. -/
structure PinMap where
  pin : Int
  peripheral : Int
  function : Nat
deriving Repr, DecidableEq

/-- Modelled from the spec: the `NC` (not-connected) pin name, from the
platform pin-name enumeration absent from the repository. -/
def NC : Int := -1

/-- The sentinel entry `{NC, NC, 0}` terminating every pinmap table. -/
def pinMapSentinel : PinMap := ⟨NC, NC, 0⟩

/-- Modelled from the spec: each platform supplies its own table of valid pin
assignments (absent from the repository); the header requires the returned
array to be terminated with `{NC, NC, 0}`. -/
def mkPinMapTable (platformEntries : List PinMap) : List PinMap :=
  platformEntries ++ [pinMapSentinel]

/-- Modelled from the spec: pins supporting SPI MOSI in master mode. -/
def spi_master_mosi_pinmap (platformEntries : List PinMap) : List PinMap :=
  mkPinMapTable platformEntries

/-- Modelled from the spec: pins supporting SPI MISO in master mode. -/
def spi_master_miso_pinmap (platformEntries : List PinMap) : List PinMap :=
  mkPinMapTable platformEntries

/-- Modelled from the spec: pins supporting SPI CLK in master mode. -/
def spi_master_clk_pinmap (platformEntries : List PinMap) : List PinMap :=
  mkPinMapTable platformEntries

/-- Modelled from the spec: pins supporting SPI CS in master mode. -/
def spi_master_cs_pinmap (platformEntries : List PinMap) : List PinMap :=
  mkPinMapTable platformEntries

/-- Modelled from the spec: pins supporting SPI MOSI in slave mode. -/
def spi_slave_mosi_pinmap (platformEntries : List PinMap) : List PinMap :=
  mkPinMapTable platformEntries

/-- Modelled from the spec: pins supporting SPI MISO in slave mode. -/
def spi_slave_miso_pinmap (platformEntries : List PinMap) : List PinMap :=
  mkPinMapTable platformEntries

/-- Modelled from the spec: pins supporting SPI CLK in slave mode. -/
def spi_slave_clk_pinmap (platformEntries : List PinMap) : List PinMap :=
  mkPinMapTable platformEntries

/-- Modelled from the spec: pins supporting SPI CS in slave mode. -/
def spi_slave_cs_pinmap (platformEntries : List PinMap) : List PinMap :=
  mkPinMapTable platformEntries

/-! ## C9 / C10: the constants -/

/-- C9: the default padding constants for partial transfers have the exact
values `SPI_FILL_CHAR = 0xFF` (255) and `SPI_FILL_WORD = 0xFFFF` (65535). -/
theorem fill_constants_exact :
    SPI_FILL_CHAR = 255 ∧ SPI_FILL_WORD = 65535 := by
  constructor <;> rfl

/-- C10: the three public event flags are pairwise-disjoint single-bit masks,
`SPI_EVENT_ALL` is exactly their bitwise OR, the internal flag `1 <<< 30`
shares no bit with `SPI_EVENT_ALL`, and masking any result with
`SPI_EVENT_ALL` never exposes the internal flag. -/
theorem event_flags_disjoint_and_all :
    (SPI_EVENT_ERROR = 2 ^ 1 ∧ SPI_EVENT_COMPLETE = 2 ^ 2 ∧
      SPI_EVENT_RX_OVERFLOW = 2 ^ 3) ∧
    (SPI_EVENT_ERROR &&& SPI_EVENT_COMPLETE = 0 ∧
      SPI_EVENT_ERROR &&& SPI_EVENT_RX_OVERFLOW = 0 ∧
      SPI_EVENT_COMPLETE &&& SPI_EVENT_RX_OVERFLOW = 0) ∧
    SPI_EVENT_ALL = SPI_EVENT_ERROR ||| SPI_EVENT_COMPLETE ||| SPI_EVENT_RX_OVERFLOW ∧
    SPI_EVENT_ALL &&& SPI_EVENT_INTERNAL_TRANSFER_COMPLETE = 0 ∧
    ∀ r : Nat, (r &&& SPI_EVENT_ALL) &&& SPI_EVENT_INTERNAL_TRANSFER_COMPLETE = 0 := by
  refine ⟨⟨by decide, by decide, by decide⟩, ⟨by decide, by decide, by decide⟩,
    rfl, by decide, ?_⟩
  intro r
  have h : SPI_EVENT_ALL &&& SPI_EVENT_INTERNAL_TRANSFER_COMPLETE = 0 := by decide
  rw [Nat.and_assoc, h, Nat.and_zero]

/-! ## C1 / C2: synchronous block write -/

/-- C1: for transmit and receive lengths that are both nonnegative, the value
returned by `spi_master_block_write` (the total number of bytes written to
and read from the device) equals `max tx_length rx_length`. -/
theorem block_write_returns_max (tx_buffer : List Nat) (tx_length rx_length : Int)
    (write_fill : Nat) (htx : 0 ≤ tx_length) (hrx : 0 ≤ rx_length) :
    (spi_master_block_write tx_buffer tx_length rx_length write_fill).ret =
      max tx_length rx_length := by
  simp only [spi_master_block_write]
  omega

/-- Witness for `block_write_returns_max` at `tx_length = 2`, `rx_length = 3`. -/
theorem block_write_returns_max_witness :
    (spi_master_block_write [10, 11] 2 3 255).ret = max 2 3 :=
  block_write_returns_max [10, 11] 2 3 255 (by decide) (by decide)

/-- C2: when `tx_length < rx_length`, every byte transmitted in a position at
or beyond `tx_length` (an unwritten transmit position) equals the
caller-supplied `write_fill`. -/
theorem block_write_pads_with_fill (tx_buffer : List Nat) (tx_length rx_length : Int)
    (write_fill : Nat) (i : Nat) (htx : 0 ≤ tx_length) (hlt : tx_length < rx_length)
    (hi : tx_length.toNat ≤ i) (hi2 : i < rx_length.toNat) :
    (spi_master_block_write tx_buffer tx_length rx_length write_fill).transmitted[i]? =
      some write_fill := by
  simp only [spi_master_block_write]
  have htot : i < max tx_length.toNat rx_length.toNat := by omega
  rw [List.getElem?_map, List.getElem?_range htot, Option.map_some',
    if_neg (Nat.not_lt.mpr hi)]

/-- Witness for `block_write_pads_with_fill` at position 2 of a transfer with
`tx_length = 1`, `rx_length = 3`. -/
theorem block_write_pads_with_fill_witness :
    (spi_master_block_write [7] 1 3 255).transmitted[2]? = some 255 :=
  block_write_pads_with_fill [7] 1 3 255 2 (by decide) (by decide) (by decide) (by decide)

/-! ## C3: the asynchronous IRQ handler's return value -/

/-- C3: `spi_irq_handler_asynch` returns 0 exactly when no termination
condition (error, receive overflow, transfer complete) was met, and when a
condition was met its non-zero return is composed only of
`SPI_EVENT_ERROR`, `SPI_EVENT_COMPLETE`, `SPI_EVENT_RX_OVERFLOW` and the
internal completion flag. -/
theorem irq_handler_termination_mask (obj : spi_t) :
    (spi_irq_handler_asynch obj = 0 ↔
      obj.spi.hwError = false ∧ obj.spi.rxOverflowed = false ∧
        transferComplete obj = false) ∧
    (spi_irq_handler_asynch obj ≠ 0 →
      spi_irq_handler_asynch obj &&&
        (SPI_EVENT_ALL ||| SPI_EVENT_INTERNAL_TRANSFER_COMPLETE) =
        spi_irq_handler_asynch obj) := by
  rcases h1 : obj.spi.hwError <;> rcases h2 : obj.spi.rxOverflowed <;>
    rcases h3 : transferComplete obj <;>
      simp [spi_irq_handler_asynch, h1, h2, h3] <;> decide

/-- Witness for `irq_handler_termination_mask` at a handle whose transfer hit
a hardware error. -/
theorem irq_handler_termination_mask_witness :
    spi_irq_handler_asynch
        ⟨⟨false, false, false, 0, 0, true, false, true, 0, 0⟩,
          ⟨true, 0, 4⟩, ⟨true, 0, 4⟩⟩ &&&
      (SPI_EVENT_ALL ||| SPI_EVENT_INTERNAL_TRANSFER_COMPLETE) =
    spi_irq_handler_asynch
        ⟨⟨false, false, false, 0, 0, true, false, true, 0, 0⟩,
          ⟨true, 0, 4⟩, ⟨true, 0, 4⟩⟩ :=
  (irq_handler_termination_mask _).2 (by decide)

/-! ## C4: the activity query -/

/-- C4: `spi_active` returns non-zero exactly when the documented decision
procedure reports activity: a temporary DMA channel is allocated, or a
permanent DMA channel is allocated and in use, or some assigned buffer has
position strictly less than its length, or there are bytes in the FIFOs. -/
theorem spi_active_iff_busy (obj : spi_t) :
    spi_active obj ≠ 0 ↔
      obj.spi.dmaTempAllocated = true ∨
      (obj.spi.dmaPermAllocated = true ∧ obj.spi.dmaInUse = true) ∨
      (obj.tx_buff.assigned = true ∧ obj.tx_buff.pos < obj.tx_buff.length) ∨
      (obj.rx_buff.assigned = true ∧ obj.rx_buff.pos < obj.rx_buff.length) ∨
      obj.spi.txFifoBytes + obj.spi.rxFifoBytes ≠ 0 := by
  simp only [spi_active]
  split_ifs with hA hB hC hD <;> simp_all <;> tauto

/-! ## C5: the abort precondition -/

/-- C5: `spi_abort_asynch` has a defined effect exactly when an asynchronous
transfer is being processed — the result exists iff the transfer is active
(calling with no active transfer is undefined, modelled `none`) — and the
defined effect is cancellation of the in-flight transfer. -/
theorem abort_asynch_defined_iff_active (obj : spi_t) :
    ((spi_abort_asynch obj).isSome ↔ obj.spi.asyncTransferActive = true) ∧
    (∀ res, spi_abort_asynch obj = some res → res.spi.asyncTransferActive = false) := by
  rcases h : obj.spi.asyncTransferActive <;> simp [spi_abort_asynch, h]

/-- Witness for `abort_asynch_defined_iff_active`: aborting a handle with an
active asynchronous transfer yields a handle whose transfer is cancelled. -/
theorem abort_asynch_defined_iff_active_witness :
    (⟨⟨false, false, false, 0, 0, false, false, false, 7, 14⟩,
        ⟨true, 0, 4⟩, ⟨true, 0, 4⟩⟩ : spi_t).spi.asyncTransferActive = false :=
  (abort_asynch_defined_iff_active
      ⟨⟨false, false, false, 0, 0, false, false, true, 7, 14⟩,
        ⟨true, 0, 4⟩, ⟨true, 0, 4⟩⟩).2 _ (by decide)

/-! ## C6: blocking synchronous calls, immediate asynchronous start -/

/-- Helper for `blockUntil`: a returned tick satisfies the readiness
condition and is the first tick from the start of polling to do so. -/
theorem blockUntil_first_ready (ready : Nat → Bool) :
    ∀ (t0 fuel t : Nat), blockUntil ready t0 fuel = some t →
      ready t = true ∧ ∀ i, t0 ≤ i → i < t → ready i = false := by
  intro t0 fuel
  induction fuel generalizing t0 with
  | zero => intro t h; simp [blockUntil] at h
  | succ n ih =>
    intro t h
    simp only [blockUntil] at h
    by_cases hr : ready t0
    · rw [if_pos hr] at h
      cases h
      exact ⟨hr, fun i h1 h2 => by omega⟩
    · rw [if_neg hr] at h
      obtain ⟨h1, h2⟩ := ih (t0 + 1) t h
      refine ⟨h1, fun i hi1 hi2 => ?_⟩
      rcases Nat.eq_or_lt_of_le hi1 with hEq | hGt
      · rw [← hEq]; exact Bool.eq_false_iff.mpr hr
      · exact h2 i hGt hi2

/-- C6: a synchronous operation modelled by `syncBlockingRun` returns only at
the first tick where its hardware-completion condition holds (it blocks the
calling context until completion), whereas `spi_master_transfer` consumes
zero ticks before returning (it returns immediately), stores the
caller-supplied handler, and completion is signaled later by the
interrupt-driven `completionSignal` invoking that handler. -/
theorem sync_blocks_async_returns_immediately :
    (∀ (ready : Nat → Bool) (fuel t : Nat), syncBlockingRun ready fuel = some t →
      ready t = true ∧ ∀ i, i < t → ready i = false) ∧
    (∀ obj tx rx hnd e, (spi_master_transfer obj tx rx hnd e).2 = 0) ∧
    (∀ obj tx rx hnd e, (spi_master_transfer obj tx rx hnd e).1.spi.handler = hnd) ∧
    (∀ obj tx rx hnd e,
      spi_irq_handler_asynch (spi_master_transfer obj tx rx hnd e).1 ≠ 0 →
      completionSignal (spi_master_transfer obj tx rx hnd e).1 = some hnd) := by
  refine ⟨?_, fun _ _ _ _ _ => rfl, fun _ _ _ _ _ => rfl, ?_⟩
  · intro ready fuel t h
    obtain ⟨h1, h2⟩ := blockUntil_first_ready ready 0 fuel t h
    exact ⟨h1, fun i hi => h2 i (Nat.zero_le i) hi⟩
  · intro obj tx rx hnd e h
    simp only [completionSignal]
    rw [if_pos h]
    rfl

/-- Witness for `sync_blocks_async_returns_immediately`: a run whose
condition first holds at tick 2 returns tick 2, and a zero-length transfer's
completion interrupt signals the registered handler 7. -/
theorem sync_blocks_async_returns_immediately_witness :
    ((fun t => decide (t = 2)) 2 = true ∧
      ∀ i, i < 2 → (fun t => decide (t = 2)) i = false) ∧
    completionSignal
        (spi_master_transfer
          ⟨⟨false, false, false, 0, 0, false, false, false, 0, 0⟩,
            ⟨false, 0, 0⟩, ⟨false, 0, 0⟩⟩ 0 0 7 14).1 = some 7 :=
  ⟨sync_blocks_async_returns_immediately.1 (fun t => decide (t = 2)) 5 2 (by decide),
    sync_blocks_async_returns_immediately.2.2.2 _ 0 0 7 14 (by decide)⟩

/-! ## C7: pinmap termination -/

/-- C7: every pin-capability query returns a table whose sequence of valid
pin assignments is terminated by the sentinel entry `{NC, NC, 0}`, whatever
entries the platform supplies. -/
theorem pinmap_tables_sentinel_terminated
    (e1 e2 e3 e4 e5 e6 e7 e8 : List PinMap) :
    (spi_master_mosi_pinmap e1).getLast? = some pinMapSentinel ∧
    (spi_master_miso_pinmap e2).getLast? = some pinMapSentinel ∧
    (spi_master_clk_pinmap e3).getLast? = some pinMapSentinel ∧
    (spi_master_cs_pinmap e4).getLast? = some pinMapSentinel ∧
    (spi_slave_mosi_pinmap e5).getLast? = some pinMapSentinel ∧
    (spi_slave_miso_pinmap e6).getLast? = some pinMapSentinel ∧
    (spi_slave_clk_pinmap e7).getLast? = some pinMapSentinel ∧
    (spi_slave_cs_pinmap e8).getLast? = some pinMapSentinel := by
  refine ⟨?_, ?_, ?_, ?_, ?_, ?_, ?_, ?_⟩ <;>
    simp [spi_master_mosi_pinmap, spi_master_miso_pinmap, spi_master_clk_pinmap,
      spi_master_cs_pinmap, spi_slave_mosi_pinmap, spi_slave_miso_pinmap,
      spi_slave_clk_pinmap, spi_slave_cs_pinmap, mkPinMapTable,
      List.getLast?_concat]

/-! ## C8: the handle layout -/

/-- C8: with asynchronous support, the handle `spi_t` is exactly the
composite of the platform-specific descriptor and the transmit and receive
buffer descriptors (every handle is determined by those three fields, and
every operation's output handle again has that shape); without asynchronous
support the handle is the platform descriptor alone. -/
theorem spi_t_three_field_layout :
    (∀ h : spi_t, h = ⟨h.spi, h.tx_buff, h.rx_buff⟩) ∧
    spi_t_nonasync = spi_s ∧
    (∀ obj tx rx hnd e,
      (spi_master_transfer obj tx rx hnd e).1 =
        ⟨(spi_master_transfer obj tx rx hnd e).1.spi,
          (spi_master_transfer obj tx rx hnd e).1.tx_buff,
          (spi_master_transfer obj tx rx hnd e).1.rx_buff⟩) :=
  ⟨fun _ => rfl, rfl, fun _ _ _ _ _ => rfl⟩

end SpiHal
